import Mathlib

/-!
Shallow embedding of the multi-source parallel search orchestration engine
(`backend/search_modules.py` together with the data model in
`backend/models.py`).

External, nondeterministic effects (HTTP calls, the search libraries, the
regex engine applied to fetched HTML, environment variables, the event
loop's clock) are modelled as explicit environment records supplied to the
embedded functions.  A call that can raise a Python exception of class
`Exception` is modelled as an `Except Exc` value; a `try/except` block of
the source becomes an explicit `match` on that value.  `BaseException`s
that are not `Exception`s (e.g. `KeyboardInterrupt`, `CancelledError`) are
outside the model.
-/

/-- Python exception payload (the message of an `Exception`). -/
abbrev Exc := String

/-- `SearchSource` enum from `backend/models.py`. -/
inductive SearchSource where
  | google
  | duckduckgo
  | wikipedia
  | reddit
deriving DecidableEq, Repr

/-- `SearchResult` pydantic model from `backend/models.py`.  The optional
`score` float is modelled as a rational; no code under scrutiny ever sets
or reads it. -/
structure SearchResult where
  source : SearchSource
  title : String
  url : String
  snippet : String
  timestamp : Option String := none
  score : Option ℚ := none
deriving DecidableEq, Repr

/-! ### Environment of the Google module -/

/-- One item of the `items` array of a Google Custom Search API response
(or of SerpAPI's `organic_results`); dictionary keys that may be absent
are `Option`s. -/
structure ApiItem where
  title : Option String
  link : Option String
  snippet : Option String
deriving DecidableEq, Repr

/-- An HTTP response from the Google Custom Search API: status code plus
the outcome of `response.json()` / `data.get('items', [])`. -/
structure GoogleApiResp where
  status_code : Nat
  items : Except Exc (List ApiItem)

/-- An HTTP response from SerpAPI. -/
structure SerpResp where
  status_code : Nat
  organic_results : Except Exc (List ApiItem)

/-- A `requests.get` response for one Google domain in the scraping
strategy: status code, and for each of the three regex patterns the list
of matches that `re.findall` produces on `response.text` (a match is the
list of its captured groups). -/
structure ScrapeResp where
  status_code : Nat
  text_findall : Nat → List (List String)

/-- Environment of `GoogleSearchModule.search`: the inputs the four
fallback strategies draw from the outside world. -/
structure GoogleEnv where
  google_api_key : Option String
  google_cse_id : Option String
  api_response : Except Exc GoogleApiResp
  serpapi_key : Option String
  serp_response : Except Exc SerpResp
  scrape_get : Nat → Except Exc ScrapeResp
  googlesearch_lib : Except Exc (List String)

/-! ### Google module, strategies 1 and 2 -/

/-- Strategy 1, `try_google_api` (search_modules.py lines 43-76): with
both credentials set, query the Custom Search API; on status 200 convert
`items[:max_results]`; any raise inside the `try` is caught and the
strategy falls through to `return []`. -/
def try_google_api (src : SearchSource) (env : GoogleEnv) (max_results : Nat) :
    List SearchResult :=
  if env.google_api_key.isSome && env.google_cse_id.isSome then
    match env.api_response with
    | .error _ => []
    | .ok resp =>
      if resp.status_code = 200 then
        match resp.items with
        | .error _ => []
        | .ok items =>
          (items.take max_results).map (fun item =>
            { source := src
              title := item.title.getD "Google Result"
              url := item.link.getD ""
              snippet := item.snippet.getD "No snippet available" })
      else []
  else []

/-- Strategy 2, `try_serpapi` (lines 79-111): with a SerpAPI key set,
query SerpAPI; on status 200 convert `organic_results[:max_results]`;
raises are caught and fall through to `return []`. -/
def try_serpapi (src : SearchSource) (env : GoogleEnv) (max_results : Nat) :
    List SearchResult :=
  if env.serpapi_key.isSome then
    match env.serp_response with
    | .error _ => []
    | .ok resp =>
      if resp.status_code = 200 then
        match resp.organic_results with
        | .error _ => []
        | .ok items =>
          (items.take max_results).map (fun item =>
            { source := src
              title := item.title.getD "Google Result"
              url := item.link.getD ""
              snippet := item.snippet.getD "No snippet available" })
      else []
  else []

/-! ### Google module, strategy 3 (web scraping) -/

/-- The record shape built by the scraping and library strategies
(a Python dict with keys `title`, `url`, `snippet`). -/
structure ScrapeRec where
  title : String
  url : String
  snippet : String
deriving DecidableEq, Repr

/-- Scanner implementing `re.sub(r'<[^>]+>', '', s)`: a match starts at a
`<`, spans one or more characters none of which is `>`, and ends at the
first following `>`.  `pending` holds (reversed) the characters consumed
since an as yet unclosed `<`; on a `>` the whole pending run is deleted
when its gap is non-empty, while a bare `<>` (empty gap, which the regex
does not match) is emitted verbatim. -/
def stripTagsGo (pending : Option (List Char)) : List Char → List Char
  | [] => match pending with
    | none => []
    | some p => p.reverse
  | c :: rest =>
    match pending with
    | none =>
      if c = '<' then stripTagsGo (some ['<']) rest
      else c :: stripTagsGo none rest
    | some p =>
      if c = '>' then
        if p = ['<'] then '<' :: '>' :: stripTagsGo none rest
        else stripTagsGo none rest
      else stripTagsGo (some (c :: p)) rest

/-- String wrapper for `stripTagsGo`. -/
def stripTags (s : String) : String :=
  String.mk (stripTagsGo none s.data)

/-- Python's `url.startswith(pre)` on strings, as structural recursion
over the character data (the built-in `String.startsWith` does not reduce
in the kernel). -/
def pyStartswith (s pre : String) : Bool :=
  List.isPrefixOf pre.data s.data

/-- Processing of a single regex match inside the scraping strategy
(lines 163-174): require at least two groups, strip tags and truncate
title/snippet, keep the hit only when the url starts with `http` and the
title is non-empty, and replace an empty snippet by the placeholder
`"Google search result for: " ++ query`. -/
def scrapeProcessMatch (query : String) (acc : List ScrapeRec)
    (m : List String) : List ScrapeRec :=
  if 2 ≤ m.length then
    let url := m.getD 0 ""
    let title := (stripTags (m.getD 1 "")).take 100
    let snippet := (stripTags (if 2 < m.length then m.getD 2 "" else "")).take 200
    if pyStartswith url "http" && title ≠ "" then
      acc ++ [{ title := title
                url := url
                snippet := if snippet = "" then "Google search result for: " ++ query
                           else snippet }]
    else acc
  else acc

/-- The pattern loop over one domain's 200-response (lines 160-178):
matches of each pattern are truncated to `max_results` before
processing, results accumulate across patterns, and the loop returns as
soon as the accumulator is non-empty after a pattern. -/
def scrapeDomainTry (query : String) (max_results : Nat)
    (findall : Nat → List (List String)) : List ScrapeRec :=
  let r0 := ((findall 0).take max_results).foldl (scrapeProcessMatch query) []
  if r0.isEmpty then
    let r1 := ((findall 1).take max_results).foldl (scrapeProcessMatch query) r0
    if r1.isEmpty then
      ((findall 2).take max_results).foldl (scrapeProcessMatch query) r1
    else r1
  else r0

/-- The domain loop of the scraping strategy (lines 142-185): iterate the
three Google domains, skip a domain whose fetch raised or whose status is
not 200, and return `scrape_results[:max_results]` from the first domain
whose pattern loop produced anything. -/
def scrapeDomains (get : Nat → Except Exc ScrapeResp) (query : String)
    (max_results : Nat) : List Nat → List ScrapeRec
  | [] => []
  | d :: ds =>
    match get d with
    | .error _ => scrapeDomains get query max_results ds
    | .ok resp =>
      if resp.status_code = 200 then
        let r := scrapeDomainTry query max_results resp.text_findall
        if r.isEmpty then scrapeDomains get query max_results ds
        else r.take max_results
      else scrapeDomains get query max_results ds

/-- Strategy 3, `try_web_scraping` (lines 114-189), over the fixed domain
list `['www.google.com', 'www.google.co.uk', 'www.google.ca']`. -/
def try_web_scraping (env : GoogleEnv) (query : String) (max_results : Nat) :
    List ScrapeRec :=
  scrapeDomains env.scrape_get query max_results [0, 1, 2]

/-- Strategy 4, `try_googlesearch_library` (lines 192-210): the raw
`googlesearch` library call; a raise is caught and yields `[]`, otherwise
`urls[:max_results]` is converted to records with synthetic titles and
snippets. -/
def try_googlesearch_library (env : GoogleEnv) (query : String)
    (max_results : Nat) : List ScrapeRec :=
  match env.googlesearch_lib with
  | .error _ => []
  | .ok urls =>
    (urls.take max_results).enum.map (fun p =>
      { title := "Google Result " ++ toString (p.1 + 1)
        url := p.2
        snippet := "Google search result for: " ++ query })

/-! ### Google module, chain and normalization -/

/-- The heterogeneous shapes the strategy chain can hand to the
conversion loop (lines 225-241): full `SearchResult` objects from the API
strategies, dicts from scraping/library, or bare URL strings. -/
inductive GoogleDatum where
  | res (r : SearchResult)
  | record (title url snippet : Option String)
  | str (u : String)
deriving DecidableEq, Repr

/-- View of a scraping/library record as the dict handed to the
conversion loop (all three keys present). -/
def ScrapeRec.toDatum (r : ScrapeRec) : GoogleDatum :=
  .record (some r.title) (some r.url) (some r.snippet)

/-- One step of the conversion loop (lines 225-241): `SearchResult`s pass
through, dicts get per-key defaults, bare strings become url-only results
with synthetic title and snippet. -/
def googleConvert (src : SearchSource) (query : String)
    (acc : List SearchResult) : GoogleDatum → List SearchResult
  | .res r => acc ++ [r]
  | .record t u s =>
    acc ++ [{ source := src
              title := t.getD "Google Result"
              url := u.getD ""
              snippet := s.getD ("Google search result for: " ++ query) }]
  | .str u =>
    acc ++ [{ source := src
              title := "Google Result " ++ toString (acc.length + 1)
              url := u
              snippet := "Google search result for: " ++ query }]

/-- The conversion loop folded over the chain's output. -/
def googleNormalize (src : SearchSource) (query : String)
    (data : List GoogleDatum) : List SearchResult :=
  data.foldl (googleConvert src query) []

/-- The strategy chain of `GoogleSearchModule.search` (lines 212-222):
each later strategy runs only when `search_data` is still empty. -/
def googleChain (src : SearchSource) (env : GoogleEnv) (query : String)
    (max_results : Nat) : List GoogleDatum :=
  let d1 := try_google_api src env max_results
  if d1.isEmpty then
    let d2 := try_serpapi src env max_results
    if d2.isEmpty then
      let d3 := try_web_scraping env query max_results
      if d3.isEmpty then
        (try_googlesearch_library env query max_results).map ScrapeRec.toDatum
      else d3.map ScrapeRec.toDatum
    else d2.map GoogleDatum.res
  else d1.map GoogleDatum.res

/-- Body of `GoogleSearchModule.search` inside its outer `try` (lines
33-248); it ends with `return results[:max_results]`.  Every raise a
strategy can encounter is already caught inside the strategy, so the body
itself never raises. -/
def googleSearchBody (src : SearchSource) (env : GoogleEnv) (query : String)
    (max_results : Nat) : Except Exc (List SearchResult) :=
  .ok ((googleNormalize src query (googleChain src env query max_results)).take
        max_results)

/-- The `except Exception: ... return []` boundary of a module's `search`
method: a raise escaping the body is downgraded to an empty list. -/
def guardEmpty (e : Except Exc (List SearchResult)) :
    Except Exc (List SearchResult) :=
  match e with
  | .ok l => .ok l
  | .error _ => .ok []

/-- `GoogleSearchModule.search` (lines 32-252): the body wrapped in the
outer `try/except Exception`, whose handler returns `[]`. -/
def googleSearch (src : SearchSource) (env : GoogleEnv) (query : String)
    (max_results : Nat) : Except Exc (List SearchResult) :=
  guardEmpty (googleSearchBody src env query max_results)

/-! ### DuckDuckGo module -/

/-- One dict yielded by `DDGS().text`; keys that may be absent are
`Option`s (lines 303-310 read `title`, `href`, `link`, `body`,
`snippet`). -/
structure DdgItem where
  title : Option String
  href : Option String
  link : Option String
  body : Option String
  snippet : Option String
deriving DecidableEq, Repr

/-- Environment of `DuckDuckGoSearchModule.search`: the outcome of the
configured `ddgs.text` call and of the minimal-configuration fallback
call. -/
structure DdgEnv where
  ddgs_text : Except Exc (List DdgItem)
  ddgs_text_simple : Except Exc (List DdgItem)

/-- `run_ddgs_search` (lines 266-295): try the configured client; on a
raise retry with a bare `DDGS()`; on a second raise return `[]`. -/
def run_ddgs_search (env : DdgEnv) : List DdgItem :=
  match env.ddgs_text with
  | .ok items => items
  | .error _ =>
    match env.ddgs_text_simple with
    | .ok items => items
    | .error _ => []

/-- Body of `DuckDuckGoSearchModule.search` inside its outer `try`
(lines 261-313).  Note: the produced list is *not* truncated to
`max_results`; the module relies on the library honouring its
`max_results` argument. -/
def ddgSearchBody (src : SearchSource) (env : DdgEnv) (query : String)
    (max_results : Nat) : Except Exc (List SearchResult) :=
  let ddgs_results := run_ddgs_search env
  if ddgs_results.isEmpty then .ok []
  else
    .ok (ddgs_results.map (fun item =>
      { source := src
        title := item.title.getD "No title"
        url := item.href.getD (item.link.getD "")
        snippet := item.body.getD (item.snippet.getD "No snippet available") }))

/-- `DuckDuckGoSearchModule.search` (lines 260-317): body wrapped in the
outer `try/except Exception` returning `[]`. -/
def ddgSearch (src : SearchSource) (env : DdgEnv) (query : String)
    (max_results : Nat) : Except Exc (List SearchResult) :=
  guardEmpty (ddgSearchBody src env query max_results)

/-! ### Wikipedia module -/

/-- Exceptions the `wikipedia` library raises: `DisambiguationError`
carrying its options list, or any other `Exception`. -/
inductive WikiExc where
  | disambiguation (options : List String)
  | other (e : Exc)
deriving DecidableEq, Repr

/-- What the `wikipedia` library yields for one title: the outcome of
`wikipedia.summary(t, ...)` and of `wikipedia.page(t, ...).url`. -/
structure WikiLookup where
  summary : Except WikiExc String
  url : Except WikiExc String

/-- Environment of `WikipediaSearchModule.search`: the outcome of
`wikipedia.search` and the per-title lookups. -/
structure WikiEnv where
  search_titles : Except Exc (List String)
  lookup : String → WikiLookup

/-- The `DisambiguationError` handler (lines 355-375): take the first
option if any, fetch its summary and url, and skip the title on any
further raise. -/
def wikiDisambig (src : SearchSource) (env : WikiEnv) :
    List String → Option SearchResult
  | [] => none
  | first :: _ =>
    match (env.lookup first).summary with
    | .error _ => none
    | .ok s =>
      match (env.lookup first).url with
      | .error _ => none
      | .ok u => some { source := src, title := first, url := u, snippet := s }

/-- Processing of one title of the search-results loop (lines 336-377):
fetch summary then url; a `DisambiguationError` from either call goes to
the disambiguation handler, any other raise skips the title. -/
def wikiProcessTitle (src : SearchSource) (env : WikiEnv) (t : String) :
    Option SearchResult :=
  match (env.lookup t).summary with
  | .error (.disambiguation opts) => wikiDisambig src env opts
  | .error (.other _) => none
  | .ok s =>
    match (env.lookup t).url with
    | .error (.disambiguation opts) => wikiDisambig src env opts
    | .error (.other _) => none
    | .ok u => some { source := src, title := t, url := u, snippet := s }

/-- Body of `WikipediaSearchModule.search` inside its outer `try` (lines
326-379): `wikipedia.search` may raise (propagating to the outer
handler); the loop runs over `search_results[:max_results]`. -/
def wikiSearchBody (src : SearchSource) (env : WikiEnv) (query : String)
    (max_results : Nat) : Except Exc (List SearchResult) :=
  match env.search_titles with
  | .error e => .error e
  | .ok titles => .ok ((titles.take max_results).filterMap (wikiProcessTitle src env))

/-- `WikipediaSearchModule.search` (lines 325-382): body wrapped in the
outer `try/except Exception` returning `[]`. -/
def wikiSearch (src : SearchSource) (env : WikiEnv) (query : String)
    (max_results : Nat) : Except Exc (List SearchResult) :=
  guardEmpty (wikiSearchBody src env query max_results)

/-! ### Orchestrator (`ParallelSearchManager`) -/

/-- Which concrete module class an entry of the registry is. -/
inductive ModuleKind where
  | google
  | ddg
  | wiki
deriving DecidableEq, Repr

/-- A constructed search module: its class together with the
`self.source` field set in `SearchModule.__init__` (lines 15-30). -/
structure SearchModule where
  kind : ModuleKind
  source : SearchSource
deriving DecidableEq, Repr

/-- `setup_modules` (lines 391-395): the registry dict in insertion
order.  `SearchSource.reddit` is never registered. -/
def setup_modules : List (SearchSource × SearchModule) :=
  [(SearchSource.google, ⟨ModuleKind.google, SearchSource.google⟩),
   (SearchSource.duckduckgo, ⟨ModuleKind.ddg, SearchSource.duckduckgo⟩),
   (SearchSource.wikipedia, ⟨ModuleKind.wiki, SearchSource.wikipedia⟩)]

/-- `source in self.modules` / `self.modules[source]` on the registry. -/
def lookupModule (mods : List (SearchSource × SearchModule)) (s : SearchSource) :
    Option SearchModule :=
  (mods.find? (fun p => p.1 = s)).map (fun p => p.2)

/-- Scheduling fate of one per-source task inside `search_with_timeout`:
the awaited search either completes (`normal`), exceeds its deadline
(`timeout`, i.e. `asyncio.wait_for` raises `TimeoutError`), or is
interrupted by some other `Exception` (`fault`). -/
inductive TaskFate where
  | normal
  | timeout
  | fault (e : Exc)
deriving DecidableEq, Repr

/-- The combined external world one orchestration call runs against: the
environment each module reads, plus the scheduling fate of each
per-source task. -/
structure WorldEnv where
  googleEnv : GoogleEnv
  ddgEnv : DdgEnv
  wikiEnv : WikiEnv
  fate : SearchSource → TaskFate

/-- Dispatch of `mod.search(query, max_results_per_source)` on a
registry entry. -/
def moduleSearch (m : SearchModule) (w : WorldEnv) (query : String)
    (max_results : Nat) : Except Exc (List SearchResult) :=
  match m.kind with
  | .google => googleSearch m.source w.googleEnv query max_results
  | .ddg => ddgSearch m.source w.ddgEnv query max_results
  | .wiki => wikiSearch m.source w.wikiEnv query max_results

/-- Per-source deadline chosen at line 407: 30 s for Google, 15 s for
every other source. -/
def sourceTimeout (s : SearchSource) : Nat :=
  if s = SearchSource.google then 30 else 15

/-- `search_with_timeout` (lines 404-417): await the module's search
under the per-source deadline; `TimeoutError` and any other `Exception`
are caught and produce `[]`.  The result is what `asyncio.gather` sees
for this task. -/
def search_with_timeout (fate : TaskFate)
    (res : Except Exc (List SearchResult)) : Except Exc (List SearchResult) :=
  match fate with
  | .timeout => .ok []
  | .fault _ => .ok []
  | .normal =>
    match res with
    | .ok l => .ok l
    | .error _ => .ok []

/-- Python-dict assignment `d[k] = v`: replace the value in place if the
key is present, append otherwise. -/
def dictInsert {α β : Type} [DecidableEq α] :
    List (α × β) → α → β → List (α × β)
  | [], k, v => [(k, v)]
  | (k', v') :: rest, k, v =>
    if k' = k then (k, v) :: rest else (k', v') :: dictInsert rest k v

/-- Python-dict membership/read `d.get(k)`. -/
def lookupDict {α β : Type} [DecidableEq α] :
    List (α × β) → α → Option β
  | [], _ => none
  | (k', v') :: rest, k => if k' = k then some v' else lookupDict rest k

/-- The list of tasks built by the launch loop (lines 399-423): one task
per requested source that is present in the registry, paired with the
value the task settles to. -/
def launchTasks (mods : List (SearchSource × SearchModule)) (w : WorldEnv)
    (query : String) (sources : List SearchSource) (max_results : Nat) :
    List (SearchSource × Except Exc (List SearchResult)) :=
  sources.filterMap (fun s =>
    (lookupModule mods s).map (fun m =>
      (s, search_with_timeout (w.fate s) (moduleSearch m w query max_results))))

/-- One step of the aggregation loop (lines 430-441): an exception entry
from `gather` becomes `[]`, otherwise `search_results if search_results
else []` is stored. -/
def aggregateStep (res : List (SearchSource × List SearchResult))
    (t : SearchSource × Except Exc (List SearchResult)) :
    List (SearchSource × List SearchResult) :=
  match t.2 with
  | .error _ => dictInsert res t.1 []
  | .ok l => dictInsert res t.1 (if l.isEmpty then [] else l)

/-- `ParallelSearchManager.search_parallel` (lines 397-443) on a given
registry: launch the tasks, gather, and fold the aggregation loop over
the empty dict. -/
def searchParallelRun (mods : List (SearchSource × SearchModule)) (w : WorldEnv)
    (query : String) (sources : List SearchSource) (max_results : Nat) :
    List (SearchSource × List SearchResult) :=
  (launchTasks mods w query sources max_results).foldl aggregateStep []

/-- `ParallelSearchManager` instance state: the `self.modules` dict. -/
structure ParallelSearchManager where
  modules : List (SearchSource × SearchModule)
deriving DecidableEq, Repr

/-- `ParallelSearchManager.__init__` (lines 387-389): start with an empty
dict and run `setup_modules`. -/
def ParallelSearchManager.mk0 : ParallelSearchManager :=
  { modules := setup_modules }

/-- The `search_parallel` method as a state transformer: the body reads
`self.modules` and contains no assignment to instance state, so the
post-state is the pre-state. -/
def ParallelSearchManager.search_parallel (mgr : ParallelSearchManager)
    (w : WorldEnv) (query : String) (sources : List SearchSource)
    (max_results : Nat) :
    List (SearchSource × List SearchResult) × ParallelSearchManager :=
  (searchParallelRun mgr.modules w query sources max_results, mgr)

/-- Keys of an association-list dict, in insertion order. -/
def dictKeys {α β : Type} (d : List (α × β)) : List α :=
  d.map (fun p => p.1)

/-! ### Infrastructure lemmas: dicts and the aggregation fold -/

theorem lookupDict_dictInsert {α β : Type} [DecidableEq α]
    (d : List (α × β)) (k k' : α) (v : β) :
    lookupDict (dictInsert d k v) k' =
      if k = k' then some v else lookupDict d k' := by
  induction d with
  | nil => simp [dictInsert, lookupDict]
  | cons p rest ih =>
    obtain ⟨k0, v0⟩ := p
    by_cases h0 : k0 = k
    · subst h0
      simp [dictInsert, lookupDict]
      by_cases h1 : k0 = k' <;> simp [h1, lookupDict]
    · simp [dictInsert, h0, lookupDict]
      by_cases h1 : k0 = k'
      · subst h1
        have : ¬ k = k0 := fun h => h0 h.symm
        simp [this, lookupDict]
      · simp [h1, lookupDict, ih]

theorem mem_dictKeys_iff_isSome {α β : Type} [DecidableEq α]
    (d : List (α × β)) (k : α) :
    k ∈ dictKeys d ↔ (lookupDict d k).isSome := by
  induction d with
  | nil => simp [dictKeys, lookupDict]
  | cons p rest ih =>
    obtain ⟨k0, v0⟩ := p
    by_cases h0 : k0 = k
    · subst h0
      simp [dictKeys, lookupDict]
    · have hk : dictKeys ((k0, v0) :: rest) = k0 :: dictKeys rest := rfl
      rw [hk, lookupDict, if_neg h0, List.mem_cons]
      constructor
      · intro h
        rcases h with h | h
        · exact absurd h.symm h0
        · exact ih.mp h
      · intro h
        exact Or.inr (ih.mpr h)

/-- The value the aggregation loop stores for a settled task outcome. -/
def sourceEntryValue (out : Except Exc (List SearchResult)) :
    List SearchResult :=
  match out with
  | .error _ => []
  | .ok l => if l.isEmpty then [] else l

/-- The aggregate entry `search_parallel` produces for one requested,
registered source. -/
def sourceEntry (mods : List (SearchSource × SearchModule)) (w : WorldEnv)
    (query : String) (max_results : Nat) (s : SearchSource) :
    Option (List SearchResult) :=
  (lookupModule mods s).map (fun m =>
    sourceEntryValue (search_with_timeout (w.fate s) (moduleSearch m w query max_results)))

theorem aggregateStep_eq (res : List (SearchSource × List SearchResult))
    (s : SearchSource) (out : Except Exc (List SearchResult)) :
    aggregateStep res (s, out) = dictInsert res s (sourceEntryValue out) := by
  cases out <;> rfl

theorem launchTasks_cons (mods : List (SearchSource × SearchModule))
    (w : WorldEnv) (query : String) (s0 : SearchSource)
    (rest : List SearchSource) (n : Nat) :
    launchTasks mods w query (s0 :: rest) n =
      match lookupModule mods s0 with
      | none => launchTasks mods w query rest n
      | some m =>
        (s0, search_with_timeout (w.fate s0) (moduleSearch m w query n)) ::
          launchTasks mods w query rest n := by
  cases h : lookupModule mods s0 <;>
    simp [launchTasks, List.filterMap_cons, h]

theorem aggregate_foldl_lookup (mods : List (SearchSource × SearchModule))
    (w : WorldEnv) (query : String) (n : Nat) :
    ∀ (srcs : List SearchSource)
      (acc : List (SearchSource × List SearchResult)) (s : SearchSource),
      lookupDict ((launchTasks mods w query srcs n).foldl aggregateStep acc) s =
        if s ∈ srcs ∧ (lookupModule mods s).isSome
        then sourceEntry mods w query n s
        else lookupDict acc s := by
  intro srcs
  induction srcs with
  | nil =>
    intro acc s
    simp [launchTasks]
  | cons s0 rest ih =>
    intro acc s
    rw [launchTasks_cons]
    cases h0 : lookupModule mods s0 with
    | none =>
      rw [ih]
      by_cases hs : s = s0
      · subst hs
        simp [h0]
      · simp [List.mem_cons, hs]
    | some m =>
      simp only [List.foldl_cons, ih, aggregateStep_eq, lookupDict_dictInsert]
      by_cases hs : s = s0
      · subst hs
        simp [h0, sourceEntry]
      · have h0s : ¬ s0 = s := fun h => hs h.symm
        simp [List.mem_cons, hs, h0s]

/-- Master characterization of the aggregate returned by
`search_parallel`: each requested, registered source maps to its
`sourceEntry`; every other source is absent. -/
theorem searchParallelRun_lookup (mods : List (SearchSource × SearchModule))
    (w : WorldEnv) (query : String) (srcs : List SearchSource) (n : Nat)
    (s : SearchSource) :
    lookupDict (searchParallelRun mods w query srcs n) s =
      if s ∈ srcs ∧ (lookupModule mods s).isSome
      then sourceEntry mods w query n s
      else none := by
  unfold searchParallelRun
  rw [aggregate_foldl_lookup]
  rfl

/-! ### Registry lemmas -/

theorem lookupModule_setup_isSome (s : SearchSource) :
    (lookupModule setup_modules s).isSome ↔ s ≠ SearchSource.reddit := by
  cases s <;> decide

theorem lookupModule_setup_source (s : SearchSource) (m : SearchModule)
    (h : lookupModule setup_modules s = some m) : m.source = s := by
  cases s <;> simp [lookupModule, setup_modules, List.find?] at h <;> simp [← h]

/-- Replacement of the scheduling fate of a single source, leaving the
rest of the world unchanged. -/
def updateFate (w : WorldEnv) (s : SearchSource) (f : TaskFate) : WorldEnv :=
  { w with fate := fun t => if t = s then f else w.fate t }

theorem moduleSearch_updateFate (m : SearchModule) (w : WorldEnv)
    (s : SearchSource) (f : TaskFate) (query : String) (n : Nat) :
    moduleSearch m (updateFate w s f) query n = moduleSearch m w query n := by
  obtain ⟨k, src⟩ := m
  cases k <;> rfl

theorem sourceEntry_updateFate (mods : List (SearchSource × SearchModule))
    (w : WorldEnv) (query : String) (n : Nat) (s : SearchSource)
    (f : TaskFate) (t : SearchSource) (h : t ≠ s) :
    sourceEntry mods (updateFate w s f) query n t =
      sourceEntry mods w query n t := by
  unfold sourceEntry
  have hf : (updateFate w s f).fate t = w.fate t := by
    simp [updateFate, h]
  rw [hf]
  congr 1

/-! ### Shared concrete environments for witnesses and counterexamples -/

/-- A Google environment in which every strategy finds nothing: no
credentials, failing HTTP, failing library. -/
def emptyGoogleEnv : GoogleEnv :=
  { google_api_key := none
    google_cse_id := none
    api_response := .error "connection refused"
    serpapi_key := none
    serp_response := .error "connection refused"
    scrape_get := fun _ => .error "connection refused"
    googlesearch_lib := .error "HTTP 429" }

/-- A DuckDuckGo environment whose library calls return nothing. -/
def emptyDdgEnv : DdgEnv :=
  { ddgs_text := .ok []
    ddgs_text_simple := .ok [] }

/-- A Wikipedia environment with no matching titles. -/
def emptyWikiEnv : WikiEnv :=
  { search_titles := .ok []
    lookup := fun _ => { summary := .error (.other "no page"), url := .error (.other "no page") } }

/-- A world where every source finds nothing and every task completes. -/
def baseWorld : WorldEnv :=
  { googleEnv := emptyGoogleEnv
    ddgEnv := emptyDdgEnv
    wikiEnv := emptyWikiEnv
    fate := fun _ => TaskFate.normal }

/-! ### Claim C1 -/

/-- C1 (counterexample): `reddit` is a requested `SearchSource`, yet the
mapping returned by `search_parallel` has no `reddit` key at all —
the registry built by `setup_modules` never registers a reddit module
and unregistered sources are silently skipped. -/
theorem reddit_requested_but_absent :
    SearchSource.reddit ∈ ([SearchSource.reddit] : List SearchSource) ∧
    SearchSource.reddit ∉
      dictKeys (searchParallelRun setup_modules baseWorld "quantum computing"
        [SearchSource.reddit] 5) := by
  decide

/-- C1 (amended): the key set of the mapping returned by
`search_parallel` equals the requested source set *restricted to the
registered sources* (google, duckduckgo, wikipedia): every requested
registered source appears as a key — even with an empty value — no other
key appears, and a requested but unregistered source such as `reddit` is
silently dropped. -/
theorem searchParallel_keys_eq_registered_requested
    (w : WorldEnv) (query : String) (srcs : List SearchSource) (n : Nat)
    (s : SearchSource) :
    s ∈ dictKeys (searchParallelRun setup_modules w query srcs n) ↔
      s ∈ srcs ∧ s ≠ SearchSource.reddit := by
  rw [mem_dictKeys_iff_isSome, searchParallelRun_lookup]
  by_cases hcond : s ∈ srcs ∧ (lookupModule setup_modules s).isSome
  · rw [if_pos hcond]
    simp only [sourceEntry, Option.isSome_map']
    constructor
    · intro _
      exact ⟨hcond.1, (lookupModule_setup_isSome s).mp hcond.2⟩
    · intro _
      exact hcond.2
  · rw [if_neg hcond]
    constructor
    · intro hfalse
      simp at hfalse
    · intro hx
      exact absurd ⟨hx.1, (lookupModule_setup_isSome s).mpr hx.2⟩ hcond

/-! ### Claim C9 -/

/-- C9: `search_parallel` contains no assignment to instance state, so
the manager's registry after a call is exactly the registry before it,
and a second call on the post-state manager consults the same registry
(it returns what a call on the original manager returns). -/
theorem manager_registry_unchanged
    (mgr : ParallelSearchManager) (w : WorldEnv) (query : String)
    (srcs : List SearchSource) (n : Nat) :
    (mgr.search_parallel w query srcs n).2 = mgr ∧
    ∀ (w' : WorldEnv) (query' : String) (srcs' : List SearchSource) (n' : Nat),
      ((mgr.search_parallel w query srcs n).2.search_parallel w' query' srcs' n').1 =
        (mgr.search_parallel w' query' srcs' n').1 :=
  ⟨rfl, fun _ _ _ _ => rfl⟩

/-! ### Claim C2 -/

/-- C2: an `Exception` that escapes a source module's task is caught by
the orchestrator layer (`search_with_timeout`, and the
`isinstance(..., Exception)` net after `gather`) and becomes an
empty-list entry for that source; the entries of all other requested
sources are unaffected by the faulting source's fate.  `search_parallel`
itself never raises: `searchParallelRun` is a total function into plain
association lists, with no error outcome in its type. -/
theorem task_fault_isolated
    (w : WorldEnv) (query : String) (srcs : List SearchSource) (n : Nat)
    (s : SearchSource) (e : Exc)
    (hf : w.fate s = TaskFate.fault e) (hmem : s ∈ srcs)
    (hreg : s ≠ SearchSource.reddit) :
    lookupDict (searchParallelRun setup_modules w query srcs n) s = some [] ∧
    ∀ (f : TaskFate) (t : SearchSource), t ≠ s →
      lookupDict (searchParallelRun setup_modules (updateFate w s f) query srcs n) t =
        lookupDict (searchParallelRun setup_modules w query srcs n) t := by
  have hso : (lookupModule setup_modules s).isSome :=
    (lookupModule_setup_isSome s).mpr hreg
  constructor
  · rw [searchParallelRun_lookup, if_pos ⟨hmem, hso⟩]
    unfold sourceEntry
    obtain ⟨m, hm⟩ := Option.isSome_iff_exists.mp hso
    rw [hm]
    simp [hf, search_with_timeout, sourceEntryValue]
  · intro f t ht
    rw [searchParallelRun_lookup, searchParallelRun_lookup]
    by_cases hc : t ∈ srcs ∧ (lookupModule setup_modules t).isSome
    · rw [if_pos hc, if_pos hc, sourceEntry_updateFate _ _ _ _ _ _ _ ht]
    · rw [if_neg hc, if_neg hc]

/-- A world in which the google task faults with an unhandled exception
while every other task completes normally. -/
def faultWorld : WorldEnv :=
  { baseWorld with
    fate := fun t =>
      if t = SearchSource.google then TaskFate.fault "boom" else TaskFate.normal }

/-- Witness for C2 at a concrete world: the faulting google source maps
to `[]`, and the wikipedia entry is unchanged when google's fate is
replaced. -/
theorem task_fault_isolated_witness :
    lookupDict (searchParallelRun setup_modules faultWorld "q"
      [SearchSource.google, SearchSource.wikipedia] 5) SearchSource.google = some [] ∧
    lookupDict (searchParallelRun setup_modules
        (updateFate faultWorld SearchSource.google TaskFate.timeout) "q"
        [SearchSource.google, SearchSource.wikipedia] 5) SearchSource.wikipedia =
      lookupDict (searchParallelRun setup_modules faultWorld "q"
        [SearchSource.google, SearchSource.wikipedia] 5) SearchSource.wikipedia := by
  have h := task_fault_isolated faultWorld "q"
    [SearchSource.google, SearchSource.wikipedia] 5 SearchSource.google "boom"
    rfl (by decide) (by decide)
  exact ⟨h.1, h.2 TaskFate.timeout SearchSource.wikipedia (by decide)⟩

/-! ### Claim C5 -/

/-- C5: a source whose task exceeds its per-source deadline gets an
empty-list entry in the returned mapping — exactly the entry a source
whose strategies all found nothing gets (`baseWorld`) — and the
`TimeoutError` is absorbed by `search_with_timeout`, never propagated. -/
theorem timeout_entry_empty
    (w : WorldEnv) (query : String) (srcs : List SearchSource) (n : Nat)
    (s : SearchSource)
    (ht : w.fate s = TaskFate.timeout) (hmem : s ∈ srcs)
    (hreg : s ≠ SearchSource.reddit) :
    lookupDict (searchParallelRun setup_modules w query srcs n) s = some [] ∧
    lookupDict (searchParallelRun setup_modules baseWorld query srcs n) s = some [] := by
  have hso : (lookupModule setup_modules s).isSome :=
    (lookupModule_setup_isSome s).mpr hreg
  constructor
  · rw [searchParallelRun_lookup, if_pos ⟨hmem, hso⟩]
    unfold sourceEntry
    obtain ⟨m, hm⟩ := Option.isSome_iff_exists.mp hso
    rw [hm]
    simp [ht, search_with_timeout, sourceEntryValue]
  · rw [searchParallelRun_lookup, if_pos ⟨hmem, hso⟩]
    cases s with
    | google =>
      simp [sourceEntry, lookupModule, setup_modules, List.find?, moduleSearch,
        baseWorld, search_with_timeout, googleSearch, googleSearchBody, guardEmpty,
        googleChain, googleNormalize, try_google_api, try_serpapi, try_web_scraping,
        scrapeDomains, try_googlesearch_library, emptyGoogleEnv, sourceEntryValue]
    | duckduckgo =>
      simp [sourceEntry, lookupModule, setup_modules, List.find?, moduleSearch,
        baseWorld, search_with_timeout, ddgSearch, ddgSearchBody, guardEmpty,
        run_ddgs_search, emptyDdgEnv, sourceEntryValue]
    | wikipedia =>
      simp [sourceEntry, lookupModule, setup_modules, List.find?, moduleSearch,
        baseWorld, search_with_timeout, wikiSearch, wikiSearchBody, guardEmpty,
        emptyWikiEnv, sourceEntryValue]
    | reddit => exact absurd rfl hreg

/-- A world where the wikipedia task hits its deadline. -/
def timeoutWorld : WorldEnv :=
  { baseWorld with
    fate := fun t =>
      if t = SearchSource.wikipedia then TaskFate.timeout else TaskFate.normal }

/-- Witness for C5 at a concrete world. -/
theorem timeout_entry_empty_witness :
    lookupDict (searchParallelRun setup_modules timeoutWorld "q"
      [SearchSource.wikipedia] 3) SearchSource.wikipedia = some [] :=
  (timeout_entry_empty timeoutWorld "q" [SearchSource.wikipedia] 3
    SearchSource.wikipedia rfl (by decide) (by decide)).1

/-! ### Module-level length bounds (claim C3) -/

theorem sourceEntryValue_ok (l : List SearchResult) :
    sourceEntryValue (Except.ok l) = l := by
  cases l <;> rfl

theorem googleSearch_length_le (src : SearchSource) (env : GoogleEnv)
    (query : String) (n : Nat) (l : List SearchResult)
    (h : googleSearch src env query n = Except.ok l) : l.length ≤ n := by
  unfold googleSearch googleSearchBody guardEmpty at h
  simp at h
  rw [← h, List.length_take]
  exact min_le_left _ _

theorem wikiSearch_length_le (src : SearchSource) (env : WikiEnv)
    (query : String) (n : Nat) (l : List SearchResult)
    (h : wikiSearch src env query n = Except.ok l) : l.length ≤ n := by
  unfold wikiSearch wikiSearchBody guardEmpty at h
  cases hst : env.search_titles with
  | error e =>
    rw [hst] at h
    simp at h
    simp [h]
  | ok titles =>
    rw [hst] at h
    simp at h
    rw [← h]
    exact le_trans (List.length_filterMap_le _ _)
      (by rw [List.length_take]; exact min_le_left _ _)

/-- The assumption that the `duckduckgo_search` library honours the
`max_results` argument the module passes to `ddgs.text` — the module
itself performs no truncation. -/
def ddgHonorsCap (env : DdgEnv) (n : Nat) : Prop :=
  (∀ items, env.ddgs_text = Except.ok items → items.length ≤ n) ∧
  (∀ items, env.ddgs_text_simple = Except.ok items → items.length ≤ n)

theorem ddgSearch_length_le (src : SearchSource) (env : DdgEnv)
    (query : String) (n : Nat) (l : List SearchResult)
    (hcap : ddgHonorsCap env n)
    (h : ddgSearch src env query n = Except.ok l) : l.length ≤ n := by
  have hrun : (run_ddgs_search env).length ≤ n := by
    unfold run_ddgs_search
    cases h1 : env.ddgs_text with
    | ok items => exact hcap.1 items h1
    | error e =>
      cases h2 : env.ddgs_text_simple with
      | ok items => exact hcap.2 items h2
      | error e2 => simp
  unfold ddgSearch ddgSearchBody guardEmpty at h
  by_cases he : (run_ddgs_search env).isEmpty
  · rw [if_pos he] at h
    simp at h
    simp [h]
  · rw [if_neg he] at h
    simp at h
    rw [← h, List.length_map]
    exact hrun

theorem moduleSearch_length_le (m : SearchModule) (w : WorldEnv)
    (query : String) (n : Nat) (l : List SearchResult)
    (hcap : ddgHonorsCap w.ddgEnv n)
    (h : moduleSearch m w query n = Except.ok l) : l.length ≤ n := by
  obtain ⟨k, src⟩ := m
  cases k with
  | google => exact googleSearch_length_le src w.googleEnv query n l h
  | ddg => exact ddgSearch_length_le src w.ddgEnv query n l hcap h
  | wiki => exact wikiSearch_length_le src w.wikiEnv query n l h

/-- Any entry of the aggregate is either `[]` or the `ok`-value of the
registered module's search. -/
theorem lookup_some_cases (w : WorldEnv) (query : String)
    (srcs : List SearchSource) (n : Nat) (s : SearchSource)
    (l : List SearchResult)
    (h : lookupDict (searchParallelRun setup_modules w query srcs n) s = some l) :
    ∃ m, lookupModule setup_modules s = some m ∧
      (l = [] ∨ moduleSearch m w query n = Except.ok l) := by
  rw [searchParallelRun_lookup] at h
  by_cases hc : s ∈ srcs ∧ (lookupModule setup_modules s).isSome
  · rw [if_pos hc] at h
    obtain ⟨m, hm⟩ := Option.isSome_iff_exists.mp hc.2
    refine ⟨m, hm, ?_⟩
    rw [sourceEntry, hm] at h
    simp only [Option.map_some'] at h
    have hval := Option.some.inj h
    cases hfate : w.fate s with
    | timeout =>
      rw [hfate] at hval
      left
      rw [← hval]
      rfl
    | fault e =>
      rw [hfate] at hval
      left
      rw [← hval]
      rfl
    | normal =>
      rw [hfate] at hval
      cases hres : moduleSearch m w query n with
      | error e =>
        rw [hres] at hval
        left
        rw [← hval]
        rfl
      | ok l2 =>
        rw [hres] at hval
        have hred : search_with_timeout TaskFate.normal (Except.ok l2) = Except.ok l2 := rfl
        rw [hred, sourceEntryValue_ok] at hval
        right
        rw [hval]
  · rw [if_neg hc] at h
    cases h

/-! ### Claim C3 -/

/-- C3 (amended): every entry of the aggregate holds at most
`max_results_per_source` results *provided* the DuckDuckGo library
honours the `max_results` argument it is passed; the Google module
truncates with `results[:max_results]` and the Wikipedia module iterates
`search_results[:max_results]`, but the DuckDuckGo module performs no
truncation of its own. -/
theorem aggregate_entries_capped (w : WorldEnv) (query : String)
    (srcs : List SearchSource) (n : Nat) (s : SearchSource)
    (l : List SearchResult)
    (hcap : ddgHonorsCap w.ddgEnv n)
    (h : lookupDict (searchParallelRun setup_modules w query srcs n) s = some l) :
    l.length ≤ n := by
  obtain ⟨m, hm, hcase⟩ := lookup_some_cases w query srcs n s l h
  cases hcase with
  | inl he => rw [he]; simp
  | inr hok => exact moduleSearch_length_le m w query n l hcap hok

/-- Witness for C3 (amended) at a concrete world. -/
theorem aggregate_entries_capped_witness :
    ([] : List SearchResult).length ≤ 5 :=
  aggregate_entries_capped baseWorld "q" [SearchSource.wikipedia] 5
    SearchSource.wikipedia []
    ⟨fun items h => by cases h; decide, fun items h => by cases h; decide⟩
    (by decide)

/-- An environment in which the DuckDuckGo library ignores its
`max_results` argument and yields three items. -/
def ddgOverflowEnv : DdgEnv :=
  { ddgs_text := Except.ok
      [{ title := none, href := none, link := none, body := none, snippet := none },
       { title := none, href := none, link := none, body := none, snippet := none },
       { title := none, href := none, link := none, body := none, snippet := none }]
    ddgs_text_simple := Except.ok [] }

/-- The three results the module emits for `ddgOverflowEnv`. -/
def ddgOverflowList : List SearchResult :=
  [{ source := SearchSource.duckduckgo, title := "No title", url := "",
     snippet := "No snippet available" },
   { source := SearchSource.duckduckgo, title := "No title", url := "",
     snippet := "No snippet available" },
   { source := SearchSource.duckduckgo, title := "No title", url := "",
     snippet := "No snippet available" }]

/-- C3 (counterexample): with `max_results = 2` the DuckDuckGo module
returns the library's three items unchanged — its `search` performs no
truncation, so the claimed per-module bound fails. -/
theorem ddg_exceeds_cap :
    ddgSearch SearchSource.duckduckgo ddgOverflowEnv "q" 2 =
      Except.ok ddgOverflowList ∧
    ¬ ddgOverflowList.length ≤ 2 :=
  ⟨rfl, by decide⟩

/-! ### Claim C6 -/

theorem guardEmpty_isOk (e : Except Exc (List SearchResult)) :
    ∃ l, guardEmpty e = Except.ok l := by
  cases e with
  | ok l => exact ⟨l, rfl⟩
  | error _ => exact ⟨[], rfl⟩

/-- C6: no source module's `search` ever raises to its caller — for every
environment, including ones where every external call raises, each of the
three modules returns `Except.ok` with some list (empty in the worst
case).  The outer `try/except Exception` of each method (`guardEmpty`)
absorbs anything that escapes the per-strategy handlers. -/
theorem module_search_never_raises (src : SearchSource) (genv : GoogleEnv)
    (denv : DdgEnv) (wenv : WikiEnv) (query : String) (n : Nat) :
    (∃ l, googleSearch src genv query n = Except.ok l) ∧
    (∃ l, ddgSearch src denv query n = Except.ok l) ∧
    (∃ l, wikiSearch src wenv query n = Except.ok l) :=
  ⟨guardEmpty_isOk _, guardEmpty_isOk _, guardEmpty_isOk _⟩

/-! ### The Google fallback chain (claim C4) -/

theorem googleConvert_length (src : SearchSource) (query : String)
    (acc : List SearchResult) (d : GoogleDatum) :
    (googleConvert src query acc d).length = acc.length + 1 := by
  cases d <;> simp [googleConvert]

theorem googleNormalize_length_aux (src : SearchSource) (query : String) :
    ∀ (data : List GoogleDatum) (acc : List SearchResult),
      (data.foldl (googleConvert src query) acc).length =
        acc.length + data.length := by
  intro data
  induction data with
  | nil => intro acc; simp
  | cons d rest ih =>
    intro acc
    rw [List.foldl_cons, ih, googleConvert_length, List.length_cons]
    omega

theorem googleNormalize_length (src : SearchSource) (query : String)
    (data : List GoogleDatum) :
    (googleNormalize src query data).length = data.length := by
  unfold googleNormalize
  rw [googleNormalize_length_aux]
  simp

theorem scrapeDomains_length_le (get : Nat → Except Exc ScrapeResp)
    (query : String) (n : Nat) :
    ∀ ds, (scrapeDomains get query n ds).length ≤ n := by
  intro ds
  induction ds with
  | nil => simp [scrapeDomains]
  | cons d rest ih =>
    cases hg : get d with
    | error e => simpa [scrapeDomains, hg] using ih
    | ok resp =>
      by_cases hs : resp.status_code = 200
      · by_cases he : (scrapeDomainTry query n resp.text_findall).isEmpty
        · simpa [scrapeDomains, hg, hs, he] using ih
        · simp [scrapeDomains, hg, hs, he, List.length_take]
      · simpa [scrapeDomains, hg, hs] using ih

theorem try_web_scraping_length_le (env : GoogleEnv) (query : String)
    (n : Nat) : (try_web_scraping env query n).length ≤ n :=
  scrapeDomains_length_le env.scrape_get query n [0, 1, 2]

theorem googleChain_scrape (src : SearchSource) (env : GoogleEnv)
    (query : String) (n : Nat)
    (h1 : try_google_api src env n = [])
    (h2 : try_serpapi src env n = [])
    (h3 : try_web_scraping env query n ≠ []) :
    googleChain src env query n =
      (try_web_scraping env query n).map ScrapeRec.toDatum := by
  unfold googleChain
  rw [h1, h2]
  simp [List.isEmpty_iff, h3]

theorem googleSearch_scrape_eq (src : SearchSource) (env : GoogleEnv)
    (query : String) (n : Nat)
    (h1 : try_google_api src env n = [])
    (h2 : try_serpapi src env n = [])
    (h3 : try_web_scraping env query n ≠ []) :
    googleSearch src env query n =
      Except.ok (googleNormalize src query
        ((try_web_scraping env query n).map ScrapeRec.toDatum)) := by
  have hbody : googleSearchBody src env query n =
      Except.ok ((googleNormalize src query
        ((try_web_scraping env query n).map ScrapeRec.toDatum)).take n) := by
    unfold googleSearchBody
    rw [googleChain_scrape src env query n h1 h2 h3]
  unfold googleSearch
  rw [hbody]
  have hg : guardEmpty (Except.ok ((googleNormalize src query
      ((try_web_scraping env query n).map ScrapeRec.toDatum)).take n)) =
      Except.ok ((googleNormalize src query
        ((try_web_scraping env query n).map ScrapeRec.toDatum)).take n) := rfl
  rw [hg]
  congr 1
  apply List.take_of_length_le
  rw [googleNormalize_length, List.length_map]
  exact try_web_scraping_length_le env query n

/-- C4: when the API strategy and the SerpAPI strategy both return empty
and the scraping strategy returns non-empty, the Google module's output
is exactly the normalized output of the scraping strategy; the value of
the later `googlesearch`-library strategy is never consulted (the output
is invariant under replacing it), and each strategy occurs exactly once
in the chain's fixed order. -/
theorem google_fallback_to_scraping (src : SearchSource) (env : GoogleEnv)
    (query : String) (n : Nat)
    (h1 : try_google_api src env n = [])
    (h2 : try_serpapi src env n = [])
    (h3 : try_web_scraping env query n ≠ []) :
    googleSearch src env query n =
      Except.ok (googleNormalize src query
        ((try_web_scraping env query n).map ScrapeRec.toDatum)) ∧
    ∀ lib : Except Exc (List String),
      googleSearch src { env with googlesearch_lib := lib } query n =
        googleSearch src env query n := by
  refine ⟨googleSearch_scrape_eq src env query n h1 h2 h3, ?_⟩
  intro lib
  rw [googleSearch_scrape_eq src { env with googlesearch_lib := lib } query n h1 h2 h3,
    googleSearch_scrape_eq src env query n h1 h2 h3]
  rfl

/-- `re.findall` output on the one domain that answers in the concrete
scraping scenario: pattern 1 produces one well-formed match and one match
with a non-http url. -/
def scrapeFindall (p : Nat) : List (List String) :=
  if p = 1 then [["http://z", "<h3>Ti</h3>", ""], ["ftp://bad", "x", "y"]] else []

/-- A Google environment where only the scraping strategy succeeds. -/
def scrapeGoogleEnv : GoogleEnv :=
  { emptyGoogleEnv with
    scrape_get := fun d =>
      if d = 0 then Except.ok { status_code := 200, text_findall := scrapeFindall }
      else Except.error "connection refused" }

set_option maxRecDepth 4000 in
/-- Witness for C4 at a concrete environment. -/
theorem google_fallback_to_scraping_witness :
    googleSearch SearchSource.google scrapeGoogleEnv "rust" 5 =
      Except.ok (googleNormalize SearchSource.google "rust"
        ((try_web_scraping scrapeGoogleEnv "rust" 5).map ScrapeRec.toDatum)) :=
  (google_fallback_to_scraping SearchSource.google scrapeGoogleEnv "rust" 5
    rfl rfl (by decide)).1

/-! ### Well-formedness of scraped results (claim C7) -/

/-- What the scraping strategy guarantees of every record it keeps. -/
def scrapeWF (query : String) (rec : ScrapeRec) : Prop :=
  pyStartswith rec.url "http" = true ∧ rec.title ≠ "" ∧ rec.snippet ≠ ""

theorem google_placeholder_ne_empty (query : String) :
    "Google search result for: " ++ query ≠ "" := by
  intro h
  have hlen := congrArg String.length h
  rw [String.length_append] at hlen
  have h26 : ("Google search result for: " : String).length = 26 := rfl
  have h0 : ("" : String).length = 0 := rfl
  rw [h26, h0] at hlen
  omega

set_option maxRecDepth 2000 in
theorem scrapeProcessMatch_wf (query : String) (acc : List ScrapeRec)
    (m : List String) :
    ∀ r ∈ scrapeProcessMatch query acc m, r ∈ acc ∨ scrapeWF query r := by
  intro r hr
  unfold scrapeProcessMatch at hr
  split at hr
  · dsimp only at hr
    split at hr
    · rename_i hcond
      rw [List.mem_append] at hr
      cases hr with
      | inl h => exact Or.inl h
      | inr h =>
        right
        have hm := List.mem_singleton.mp h
        subst hm
        rw [Bool.and_eq_true] at hcond
        obtain ⟨hurl, htitle⟩ := hcond
        constructor
        · exact hurl
        · constructor
          · dsimp only
            intro hteq
            rw [hteq] at htitle
            simp at htitle
          · dsimp only
            split <;> split
            · exact google_placeholder_ne_empty query
            · rename_i hsn
              exact hsn
            · exact google_placeholder_ne_empty query
            · rename_i hsn
              exact hsn
    · exact Or.inl hr
  · exact Or.inl hr

theorem foldl_scrapeProcessMatch_wf (query : String) :
    ∀ (ms : List (List String)) (acc : List ScrapeRec),
      (∀ r ∈ acc, scrapeWF query r) →
      ∀ r ∈ ms.foldl (scrapeProcessMatch query) acc, scrapeWF query r := by
  intro ms
  induction ms with
  | nil => intro acc hacc r hr; exact hacc r hr
  | cons m rest ih =>
    intro acc hacc r hr
    rw [List.foldl_cons] at hr
    refine ih _ ?_ r hr
    intro r' hr'
    cases scrapeProcessMatch_wf query acc m r' hr' with
    | inl h => exact hacc r' h
    | inr h => exact h

theorem scrapeDomainTry_wf (query : String) (n : Nat)
    (findall : Nat → List (List String)) :
    ∀ r ∈ scrapeDomainTry query n findall, scrapeWF query r := by
  have hbase : ∀ r ∈ ([] : List ScrapeRec), scrapeWF query r := by
    intro r h
    cases h
  have h0 := foldl_scrapeProcessMatch_wf query ((findall 0).take n) [] hbase
  have h1 := foldl_scrapeProcessMatch_wf query ((findall 1).take n) _ h0
  have h2 := foldl_scrapeProcessMatch_wf query ((findall 2).take n) _ h1
  intro r hr
  unfold scrapeDomainTry at hr
  dsimp only at hr
  split at hr
  · split at hr
    · exact h2 r hr
    · exact h1 r hr
  · exact h0 r hr

theorem scrapeDomains_wf (get : Nat → Except Exc ScrapeResp) (query : String)
    (n : Nat) :
    ∀ (ds : List Nat) (r : ScrapeRec),
      r ∈ scrapeDomains get query n ds → scrapeWF query r := by
  intro ds
  induction ds with
  | nil =>
    intro r hr
    simp [scrapeDomains] at hr
  | cons d rest ih =>
    intro r hr
    unfold scrapeDomains at hr
    split at hr
    · exact ih r hr
    · split at hr
      · dsimp only at hr
        split at hr
        · exact ih r hr
        · exact scrapeDomainTry_wf query n _ r (List.take_subset _ _ hr)
      · exact ih r hr

theorem try_web_scraping_wf (env : GoogleEnv) (query : String) (n : Nat) :
    ∀ r ∈ try_web_scraping env query n, scrapeWF query r :=
  fun r hr => scrapeDomains_wf env.scrape_get query n [0, 1, 2] r hr

/-- Normalization of scraping/library records: each emitted result copies
the record's fields and stamps the module's source. -/
theorem mem_googleNormalize_recs (src : SearchSource) (query : String) :
    ∀ (recs : List ScrapeRec) (acc : List SearchResult) (r : SearchResult),
      r ∈ (recs.map ScrapeRec.toDatum).foldl (googleConvert src query) acc →
      r ∈ acc ∨ ∃ rec ∈ recs,
        r = { source := src, title := rec.title, url := rec.url,
              snippet := rec.snippet } := by
  intro recs
  induction recs with
  | nil =>
    intro acc r hr
    left
    simpa using hr
  | cons rec rest ih =>
    intro acc r hr
    rw [List.map_cons, List.foldl_cons] at hr
    rcases ih _ r hr with h | ⟨rec', hmem, heq⟩
    · unfold ScrapeRec.toDatum googleConvert at h
      rw [List.mem_append] at h
      cases h with
      | inl h => exact Or.inl h
      | inr h =>
        right
        refine ⟨rec, List.mem_cons_self _ _, ?_⟩
        have hre := List.mem_singleton.mp h
        rw [hre]
        rfl
    · exact Or.inr ⟨rec', List.mem_cons_of_mem _ hmem, heq⟩

/-- C7 (amended): results produced through the web-scraping strategy do
have http-prefixed (hence non-empty) urls and non-empty titles and
snippets — the strategy filters on `url.startswith('http') and title`
and substitutes a placeholder for an empty snippet.  (The API strategies
instead default a missing `link` to the empty string, so the claimed
invariant does not hold for them; see the counterexample.) -/
theorem scraped_results_well_formed (src : SearchSource) (env : GoogleEnv)
    (query : String) (n : Nat)
    (h1 : try_google_api src env n = [])
    (h2 : try_serpapi src env n = [])
    (h3 : try_web_scraping env query n ≠ [])
    (l : List SearchResult)
    (hok : googleSearch src env query n = Except.ok l) :
    ∀ r ∈ l, pyStartswith r.url "http" = true ∧ r.url ≠ "" ∧
      r.title ≠ "" ∧ r.snippet ≠ "" := by
  have heq := googleSearch_scrape_eq src env query n h1 h2 h3
  rw [hok] at heq
  have hl := Except.ok.inj heq
  intro r hr
  rw [hl] at hr
  rcases mem_googleNormalize_recs src query _ [] r hr with h | ⟨rec, hmem, heq'⟩
  · cases h
  · have hwf := try_web_scraping_wf env query n rec hmem
    rw [heq']
    refine ⟨hwf.1, ?_, hwf.2.1, hwf.2.2⟩
    intro hurl
    have : pyStartswith "" "http" = true := by
      rw [← hurl]
      exact hwf.1
    exact absurd this (by decide)

/-- A Google environment with API credentials where the API answers 200
with one item that has a `title` and a `snippet` but no `link` key. -/
def apiNoLinkEnv : GoogleEnv :=
  { emptyGoogleEnv with
    google_api_key := some "k"
    google_cse_id := some "c"
    api_response := Except.ok
      { status_code := 200
        items := Except.ok [{ title := some "T", link := none, snippet := some "S" }] } }

/-- The result the API strategy emits for `apiNoLinkEnv`. -/
def apiNoLinkResult : SearchResult :=
  { source := SearchSource.google, title := "T", url := "", snippet := "S" }

/-- C7 (counterexample): the Google API strategy emits a real hit whose
`url` is the *empty string* — `item.get('link', '')` defaults a missing
link to `''`, so non-emptiness of `url` is not an invariant of emitted
results. -/
theorem api_hit_with_empty_url :
    googleSearch SearchSource.google apiNoLinkEnv "q" 5 =
      Except.ok [apiNoLinkResult] ∧
    apiNoLinkResult.url = "" :=
  ⟨rfl, rfl⟩

/-- The single result of the concrete scraping scenario. -/
def scrapeHitResult : SearchResult :=
  { source := SearchSource.google, title := "Ti", url := "http://z",
    snippet := "Google search result for: rust" }

set_option maxRecDepth 4000 in
/-- Witness for C7 (amended) at a concrete environment. -/
theorem scraped_results_well_formed_witness :
    pyStartswith scrapeHitResult.url "http" = true ∧ scrapeHitResult.url ≠ "" ∧
    scrapeHitResult.title ≠ "" ∧ scrapeHitResult.snippet ≠ "" :=
  scraped_results_well_formed SearchSource.google scrapeGoogleEnv "rust" 5
    rfl rfl (by decide) [scrapeHitResult] rfl scrapeHitResult (by decide)

/-! ### Claim C8 -/

theorem try_googlesearch_library_snippet (env : GoogleEnv) (query : String)
    (n : Nat) :
    ∀ rec ∈ try_googlesearch_library env query n,
      rec.snippet = "Google search result for: " ++ query := by
  intro rec hrec
  unfold try_googlesearch_library at hrec
  split at hrec
  · cases hrec
  · obtain ⟨p, hp, hre⟩ := List.mem_map.mp hrec
    rw [← hre]

theorem googleChain_library (src : SearchSource) (env : GoogleEnv)
    (query : String) (n : Nat)
    (h1 : try_google_api src env n = [])
    (h2 : try_serpapi src env n = [])
    (h3 : try_web_scraping env query n = []) :
    googleChain src env query n =
      (try_googlesearch_library env query n).map ScrapeRec.toDatum := by
  unfold googleChain
  rw [h1, h2, h3]
  simp

/-- C8 (amended): when the first three strategies find nothing and the
raw `googlesearch` library supplies urls, every emitted result's snippet
is the synthetic placeholder `"Google search result for: " ++ query` —
with the word `Google` in front, not the spec's
`"search result for: {query}"`.  The same placeholder is the
dict-conversion default for items lacking a `snippet` key. -/
theorem google_snippet_placeholder (src : SearchSource) (env : GoogleEnv)
    (query : String) (n : Nat)
    (h1 : try_google_api src env n = [])
    (h2 : try_serpapi src env n = [])
    (h3 : try_web_scraping env query n = [])
    (l : List SearchResult)
    (hok : googleSearch src env query n = Except.ok l) :
    ∀ r ∈ l, r.snippet = "Google search result for: " ++ query := by
  have hbody : googleSearchBody src env query n =
      Except.ok ((googleNormalize src query
        ((try_googlesearch_library env query n).map ScrapeRec.toDatum)).take n) := by
    unfold googleSearchBody
    rw [googleChain_library src env query n h1 h2 h3]
  have hsearch : googleSearch src env query n =
      Except.ok ((googleNormalize src query
        ((try_googlesearch_library env query n).map ScrapeRec.toDatum)).take n) := by
    unfold googleSearch
    rw [hbody]
    rfl
  rw [hok] at hsearch
  have hl := Except.ok.inj hsearch
  intro r hr
  rw [hl] at hr
  have hr' := List.take_subset _ _ hr
  rcases mem_googleNormalize_recs src query _ [] r hr' with h | ⟨rec, hmem, heq⟩
  · cases h
  · rw [heq]
    exact try_googlesearch_library_snippet env query n rec hmem

/-- A Google environment where only the library strategy succeeds. -/
def libGoogleEnv : GoogleEnv :=
  { emptyGoogleEnv with googlesearch_lib := Except.ok ["http://x"] }

/-- The single result of the concrete library scenario. -/
def libResult : SearchResult :=
  { source := SearchSource.google, title := "Google Result 1", url := "http://x",
    snippet := "Google search result for: rust" }

/-- C8 (counterexample): in the claimed scenario the emitted snippet is
`"Google search result for: rust"`, which is not the spec's literal
placeholder `"search result for: rust"`. -/
theorem placeholder_has_google_word :
    googleSearch SearchSource.google libGoogleEnv "rust" 5 = Except.ok [libResult] ∧
    libResult.snippet ≠ "search result for: rust" :=
  ⟨rfl, by decide⟩

/-- Witness for C8 (amended) at a concrete environment. -/
theorem google_snippet_placeholder_witness :
    libResult.snippet = "Google search result for: " ++ "rust" :=
  google_snippet_placeholder SearchSource.google libGoogleEnv "rust" 5
    rfl rfl rfl [libResult] rfl libResult (by decide)

/-! ### Source stamping (claim C10) -/

theorem mem_try_google_api_source (src : SearchSource) (env : GoogleEnv)
    (n : Nat) (r : SearchResult) (h : r ∈ try_google_api src env n) :
    r.source = src := by
  unfold try_google_api at h
  split at h
  · split at h
    · cases h
    · split at h
      · split at h
        · cases h
        · obtain ⟨item, hitem, hre⟩ := List.mem_map.mp h
          rw [← hre]
      · cases h
  · cases h

theorem mem_try_serpapi_source (src : SearchSource) (env : GoogleEnv)
    (n : Nat) (r : SearchResult) (h : r ∈ try_serpapi src env n) :
    r.source = src := by
  unfold try_serpapi at h
  split at h
  · split at h
    · cases h
    · split at h
      · split at h
        · cases h
        · obtain ⟨item, hitem, hre⟩ := List.mem_map.mp h
          rw [← hre]
      · cases h
  · cases h

/-- What the conversion loop needs of a chain datum: a ready-made
`SearchResult` must already carry the module's source (dicts and strings
are stamped by the conversion itself). -/
def datumStamped (src : SearchSource) : GoogleDatum → Prop
  | .res r => r.source = src
  | .record _ _ _ => True
  | .str _ => True

theorem mem_googleConvert_source (src : SearchSource) (query : String)
    (acc : List SearchResult) (d : GoogleDatum) (r : SearchResult)
    (hd : datumStamped src d) (h : r ∈ googleConvert src query acc d) :
    r ∈ acc ∨ r.source = src := by
  cases d with
  | res r0 =>
    unfold googleConvert at h
    rw [List.mem_append] at h
    rcases h with h | h
    · exact Or.inl h
    · right
      rw [List.mem_singleton.mp h]
      exact hd
  | record t u sn =>
    unfold googleConvert at h
    rw [List.mem_append] at h
    rcases h with h | h
    · exact Or.inl h
    · right
      rw [List.mem_singleton.mp h]
  | str u =>
    unfold googleConvert at h
    rw [List.mem_append] at h
    rcases h with h | h
    · exact Or.inl h
    · right
      rw [List.mem_singleton.mp h]

theorem foldl_googleConvert_source (src : SearchSource) (query : String) :
    ∀ (data : List GoogleDatum) (acc : List SearchResult),
      (∀ d ∈ data, datumStamped src d) →
      (∀ r ∈ acc, r.source = src) →
      ∀ r ∈ data.foldl (googleConvert src query) acc, r.source = src := by
  intro data
  induction data with
  | nil => intro acc _ hacc r hr; exact hacc r hr
  | cons d rest ih =>
    intro acc hdata hacc r hr
    rw [List.foldl_cons] at hr
    refine ih _ (fun d' hd' => hdata d' (List.mem_cons_of_mem _ hd')) ?_ r hr
    intro r' hr'
    cases mem_googleConvert_source src query acc d r'
        (hdata d (List.mem_cons_self _ _)) hr' with
    | inl h => exact hacc r' h
    | inr h => exact h

theorem googleChain_stamped (src : SearchSource) (env : GoogleEnv)
    (query : String) (n : Nat) :
    ∀ d ∈ googleChain src env query n, datumStamped src d := by
  intro d hd
  unfold googleChain at hd
  dsimp only at hd
  split at hd
  · split at hd
    · split at hd
      · obtain ⟨rec, hmem, hre⟩ := List.mem_map.mp hd
        rw [← hre]
        trivial
      · obtain ⟨rec, hmem, hre⟩ := List.mem_map.mp hd
        rw [← hre]
        trivial
    · obtain ⟨r0, hmem, hre⟩ := List.mem_map.mp hd
      rw [← hre]
      exact mem_try_serpapi_source src env n r0 hmem
  · obtain ⟨r0, hmem, hre⟩ := List.mem_map.mp hd
    rw [← hre]
    exact mem_try_google_api_source src env n r0 hmem

theorem googleSearch_source (src : SearchSource) (env : GoogleEnv)
    (query : String) (n : Nat) (l : List SearchResult) (r : SearchResult)
    (hok : googleSearch src env query n = Except.ok l) (hr : r ∈ l) :
    r.source = src := by
  unfold googleSearch googleSearchBody guardEmpty at hok
  simp at hok
  rw [← hok] at hr
  have hr' := List.take_subset _ _ hr
  exact foldl_googleConvert_source src query _ []
    (googleChain_stamped src env query n) (fun r' h => absurd h (List.not_mem_nil r'))
    r hr'

theorem guardEmpty_eq_ok (e : Except Exc (List SearchResult))
    (l : List SearchResult) (h : guardEmpty e = Except.ok l) :
    e = Except.ok l ∨ l = [] := by
  cases e with
  | ok l2 => exact Or.inl h
  | error err =>
    right
    exact (Except.ok.inj h).symm

theorem ddgSearch_source (src : SearchSource) (env : DdgEnv)
    (query : String) (n : Nat) (l : List SearchResult) (r : SearchResult)
    (hok : ddgSearch src env query n = Except.ok l) (hr : r ∈ l) :
    r.source = src := by
  unfold ddgSearch at hok
  rcases guardEmpty_eq_ok _ _ hok with hb | hl
  · unfold ddgSearchBody at hb
    dsimp only at hb
    split at hb
    · have hl2 := Except.ok.inj hb
      rw [← hl2] at hr
      cases hr
    · have hl2 := Except.ok.inj hb
      rw [← hl2] at hr
      obtain ⟨item, hitem, hre⟩ := List.mem_map.mp hr
      rw [← hre]
  · rw [hl] at hr
    cases hr

theorem wikiDisambig_source (src : SearchSource) (env : WikiEnv)
    (opts : List String) (r : SearchResult)
    (h : wikiDisambig src env opts = some r) : r.source = src := by
  cases opts with
  | nil => cases h
  | cons first rest =>
    simp only [wikiDisambig] at h
    cases hsum : (env.lookup first).summary with
    | error e =>
      rw [hsum] at h
      cases h
    | ok s =>
      rw [hsum] at h
      cases hurl : (env.lookup first).url with
      | error e =>
        rw [hurl] at h
        cases h
      | ok u =>
        rw [hurl] at h
        have hre := Option.some.inj h
        rw [← hre]

theorem wikiProcessTitle_source (src : SearchSource) (env : WikiEnv)
    (t : String) (r : SearchResult)
    (h : wikiProcessTitle src env t = some r) : r.source = src := by
  unfold wikiProcessTitle at h
  cases hsum : (env.lookup t).summary with
  | error e =>
    rw [hsum] at h
    cases e with
    | disambiguation opts => exact wikiDisambig_source src env opts r h
    | other msg => cases h
  | ok s =>
    rw [hsum] at h
    cases hurl : (env.lookup t).url with
    | error e =>
      rw [hurl] at h
      cases e with
      | disambiguation opts => exact wikiDisambig_source src env opts r h
      | other msg => cases h
    | ok u =>
      rw [hurl] at h
      have hre := Option.some.inj h
      rw [← hre]

theorem wikiSearch_source (src : SearchSource) (env : WikiEnv)
    (query : String) (n : Nat) (l : List SearchResult) (r : SearchResult)
    (hok : wikiSearch src env query n = Except.ok l) (hr : r ∈ l) :
    r.source = src := by
  unfold wikiSearch at hok
  rcases guardEmpty_eq_ok _ _ hok with hb | hl
  · unfold wikiSearchBody at hb
    cases hst : env.search_titles with
    | error e =>
      rw [hst] at hb
      cases hb
    | ok titles =>
      rw [hst] at hb
      have hl2 := Except.ok.inj hb
      rw [← hl2] at hr
      obtain ⟨t, ht, hp⟩ := List.mem_filterMap.mp hr
      exact wikiProcessTitle_source src env t r hp
  · rw [hl] at hr
    cases hr

theorem moduleSearch_source (m : SearchModule) (w : WorldEnv)
    (query : String) (n : Nat) (l : List SearchResult) (r : SearchResult)
    (hok : moduleSearch m w query n = Except.ok l) (hr : r ∈ l) :
    r.source = m.source := by
  obtain ⟨k, src⟩ := m
  cases k with
  | google => exact googleSearch_source src w.googleEnv query n l r hok hr
  | ddg => exact ddgSearch_source src w.ddgEnv query n l r hok hr
  | wiki => exact wikiSearch_source src w.wikiEnv query n l r hok hr

/-- C10: every result in the aggregate entry of source `s` carries
`source = s`: each registered module is constructed with the identity it
is registered under, and stamps exactly that identity on every result it
emits. -/
theorem aggregate_results_stamped (w : WorldEnv) (query : String)
    (srcs : List SearchSource) (n : Nat) (s : SearchSource)
    (l : List SearchResult)
    (h : lookupDict (searchParallelRun setup_modules w query srcs n) s = some l) :
    ∀ r ∈ l, r.source = s := by
  obtain ⟨m, hm, hcase⟩ := lookup_some_cases w query srcs n s l h
  intro r hr
  cases hcase with
  | inl he =>
    rw [he] at hr
    cases hr
  | inr hok =>
    rw [← lookupModule_setup_source s m hm]
    exact moduleSearch_source m w query n l r hok hr

/-- A DuckDuckGo environment with a single library item. -/
def ddgOneEnv : DdgEnv :=
  { ddgs_text := Except.ok
      [{ title := some "t", href := some "u", link := none, body := some "b",
         snippet := none }]
    ddgs_text_simple := Except.ok [] }

/-- A world where only duckduckgo finds one result. -/
def ddgWorld : WorldEnv := { baseWorld with ddgEnv := ddgOneEnv }

/-- The result duckduckgo emits in `ddgWorld`. -/
def ddgOneResult : SearchResult :=
  { source := SearchSource.duckduckgo, title := "t", url := "u", snippet := "b" }

/-- Witness for C10 at a concrete world. -/
theorem aggregate_results_stamped_witness :
    ddgOneResult.source = SearchSource.duckduckgo :=
  aggregate_results_stamped ddgWorld "q" [SearchSource.duckduckgo] 5
    SearchSource.duckduckgo [ddgOneResult] (by decide) ddgOneResult (by decide)
